import Mathlib

/-!
Shallow embedding of the repository packaging manifest src/setup.py.

The script performs, in order:
  1. open README.rst, read its bytes, decode them as UTF-8 (name install);
  2. open CHANGELOG.rst, read its bytes, decode them as UTF-8 (name changelog);
  3. long_description = given two-newline separator joined over (install, changelog);
  4. a single call setup(...) with literal metadata, the computed
     long_description, and packages = find_packages().

Step 1 or 2 can raise (missing file, read error, decode error); the run
then aborts before setup is ever invoked.  We model the outside world by
an environment carrying the decoded content of each file (none when the
open, read or decode fails) and the package list that find_packages()
discovers by scanning the working directory.
-/

namespace SetupPy

/-- The arguments of one call to the packaging tool entry point setup(...),
one field per keyword argument appearing in setup.py. -/
structure SetupArgs where
  name : String
  version : String
  author : String
  author_email : String
  description : String
  long_description : String
  url : String
  license : String
  install_requires : List String
  extras_require : List (String × List String)
  packages : List String
  include_package_data : Bool
  classifiers : List String
deriving Repr, DecidableEq

/-- How a run of setup.py can fail before the setup call is reached: the
open, read or UTF-8 decode of one of the two files raises. -/
inductive ScriptError where
  | readmeUnreadable
  | changelogUnreadable
deriving Repr, DecidableEq

/-- The input state of one run of the script: the decoded UTF-8 content of
README.rst and of CHANGELOG.rst (none models an open, read or decode
failure), and the package directories that find_packages() discovers. -/
structure Env where
  readme : Option String
  changelog : Option String
  foundPackages : List String
deriving Repr, DecidableEq

/-- Python str.join: interleaves the separator between the elements. -/
def strJoin (sep : String) : List String → String
  | [] => ""
  | [a] => a
  | a :: rest => a ++ sep ++ strJoin sep rest

/-- The key of the one conditional (environment-marker) extras entry in
setup.py, written there as a colon followed by python_version<(quote)3.0(quote). -/
def condMarkerKey : String := ":python_version<\x273.0\x27"

/-- The literal argument record of the setup(...) call in setup.py, as a
function of the two computed values: long_description and the
find_packages() result. -/
def setupCall (long_description : String) (packages : List String) : SetupArgs :=
  { name := "pandapower"
    version := "2.0.0"
    author := "Leon Thurner, Alexander Scheidler"
    author_email := "leon.thurner@uni-kassel.de, alexander.scheidler@iee.fraunhofer.de"
    description := "Convenient Power System Modelling and Analysis based on PYPOWER and pandas"
    long_description := long_description
    url := "http://www.pandapower.org"
    license := "BSD"
    install_requires := ["pandas>=0.17", "networkx", "scipy", "numpy>=0.11", "packaging"]
    extras_require := [(condMarkerKey, ["future"]),
                       ("docs", ["numpydoc", "sphinx", "sphinx_rtd_theme"])]
    packages := packages
    include_package_data := true
    classifiers := [
      "Development Status :: 5 - Production/Stable",
      "Environment :: Console",
      "Intended Audience :: Developers",
      "Intended Audience :: Education",
      "Intended Audience :: Science/Research",
      "License :: OSI Approved :: BSD License",
      "Natural Language :: English",
      "Operating System :: OS Independent",
      "Programming Language :: Python",
      "Programming Language :: Python :: 3",
      "Programming Language :: Python :: 3.4",
      "Programming Language :: Python :: 3.5",
      "Programming Language :: Python :: 3.6",
      "Programming Language :: Python :: 3.7",
      "Topic :: Scientific/Engineering"] }

/-- One run of setup.py: read and decode README.rst, then CHANGELOG.rst,
then invoke setup once.  The ok value is the list of setup(...) invocations
the run performs, in order; an error aborts the run at the failing read. -/
def runScript (env : Env) : Except ScriptError (List SetupArgs) :=
  match env.readme with
  | none => .error .readmeUnreadable
  | some install =>
    match env.changelog with
    | none => .error .changelogUnreadable
    | some changelog =>
      .ok [setupCall (strJoin "\n\n" [install, changelog]) env.foundPackages]

deriving instance DecidableEq for Except

/-- An observable event of a run of setup.py. -/
inductive Event where
  | fileRead (path : String) (ok : Bool)
  | setupCalled (args : SetupArgs)
deriving Repr, DecidableEq

/-- The sequence of effects one run of setup.py performs: the two file
reads in source order (stopping at the first failure), then the single
setup call. -/
def scriptTrace (env : Env) : List Event :=
  match env.readme with
  | none => [.fileRead "README.rst" false]
  | some install =>
    match env.changelog with
    | none => [.fileRead "README.rst" true, .fileRead "CHANGELOG.rst" false]
    | some changelog =>
      [.fileRead "README.rst" true, .fileRead "CHANGELOG.rst" true,
       .setupCalled (setupCall (strJoin "\n\n" [install, changelog]) env.foundPackages)]

/-- A character allowed in a bare distribution name (PEP 508 name letters). -/
def isNameChar (c : Char) : Bool :=
  c.isAlphanum || c == '_' || c == '-' || c == '.'

/-- A character allowed in a version literal. -/
def isVersionChar (c : Char) : Bool :=
  c.isDigit || c == '.'

/-- A requirement string that is a bare distribution name, with no version
constraint at all. -/
def isBareName (r : String) : Bool :=
  !r.data.isEmpty && r.data.all isNameChar

/-- Splits a character list at the first greater-or-equal sign pair,
returning the part before and the part after, or none when absent. -/
def splitAtGe : List Char → Option (List Char × List Char)
  | [] => none
  | '>' :: '=' :: rest => some ([], rest)
  | c :: cs =>
    match splitAtGe cs with
    | some (n, v) => some (c :: n, v)
    | none => none

/-- A requirement string of the shape name, greater-or-equal sign, version:
a minimum-version constraint and nothing else (no exact pin, no upper
bound). -/
def isMinVersionReq (r : String) : Bool :=
  match splitAtGe r.data with
  | some (n, v) =>
    (!n.isEmpty && n.all isNameChar) && (!v.isEmpty && v.all isVersionChar)
  | none => false

/-- A requirement string that is either a bare name or carries only a
minimum-version constraint. -/
def isBareOrMinVersion (r : String) : Bool :=
  isBareName r || isMinVersionReq r

/-- The distribution name of a requirement string: the characters before
the first comparison operator. -/
def reqNameChars : List Char → List Char
  | [] => []
  | c :: cs =>
    if c == '>' || c == '<' || c == '=' || c == '!' || c == '~' then []
    else c :: reqNameChars cs

/-- The distribution name of a requirement string. -/
def reqName (r : String) : String := String.mk (reqNameChars r.data)

/-- An extras key that is an environment-marker condition rather than a
named extras group: setuptools treats a key starting with a colon as a
condition on the environment. -/
def isConditionalKey (k : String) : Bool :=
  match k.data with
  | [] => false
  | c :: _ => c == ':'

/-- Lexicographic order on (major, minor) language version pairs. -/
def versionLt (a b : Nat × Nat) : Bool :=
  decide (a.1 < b.1) || (decide (a.1 = b.1) && decide (a.2 < b.2))

/-- Modelled from the spec: evaluation of the one environment marker key in
setup.py.  Marker evaluation is performed by the packaging tool, which is
not part of this repository; the spec calls the condition a legacy
language-version constraint, active only below Python 3.0.  Any key other
than that marker names an ordinary extras group and never applies to a
plain install. -/
def evalMarkerKey (k : String) (py : Nat × Nat) : Bool :=
  if k = condMarkerKey then versionLt py (3, 0) else false

/-- Modelled from the spec: the distributions a plain install (no extras
selected) requires, as the packaging tool computes them from the declared
metadata: install_requires plus every extras group whose key is an
environment marker that evaluates true under the given Python version. -/
def requiredForPlainInstall (args : SetupArgs) (py : Nat × Nat) : List String :=
  args.install_requires ++
    (args.extras_require.filter fun kv => evalMarkerKey kv.1 py).flatMap Prod.snd

/-- Modelled from the spec: the artifact produced by the packaging tool
when building the distribution.  The build machinery (setuptools) is not
part of this repository; the spec states that building succeeds and yields
an installable artifact containing the declared package directories, so
the build is total and the artifact records the metadata and the package
directories passed to setup. -/
structure Artifact where
  name : String
  version : String
  packages : List String
deriving Repr, DecidableEq

/-- Modelled from the spec: building the distribution from the registered
setup arguments. -/
def buildDistribution (args : SetupArgs) : Option Artifact :=
  some { name := args.name, version := args.version, packages := args.packages }

/-- Helper: on the argument record of the setup call, a plain install
requires exactly the five install_requires entries, plus future exactly
when the (sole) environment marker applies. -/
theorem requiredForPlainInstall_setupCall (ld : String) (pkgs : List String) (py : Nat × Nat) :
    requiredForPlainInstall (setupCall ld pkgs) py
      = ["pandas>=0.17", "networkx", "scipy", "numpy>=0.11", "packaging"]
          ++ (if versionLt py (3, 0) then ["future"] else []) := by
  cases h : versionLt py (3, 0) <;>
    simp [requiredForPlainInstall, setupCall, evalMarkerKey, condMarkerKey, h, List.filter]

/-- C1: the script invokes the packaging tool entry point setup exactly
once, and that single call registers the package metadata: the name
pandapower, the version 2.0.0, an author string, a dependency list of five
entries, and a classifier list of fifteen entries. -/
theorem C1_setup_called_once_with_metadata (env : Env) (r c : String)
    (hr : env.readme = some r) (hc : env.changelog = some c) :
    ∃ args : SetupArgs,
      runScript env = Except.ok [args]
      ∧ args.name = "pandapower"
      ∧ args.version = "2.0.0"
      ∧ args.author = "Leon Thurner, Alexander Scheidler"
      ∧ args.install_requires.length = 5
      ∧ args.classifiers.length = 15 := by
  obtain ⟨orm, occ, fp⟩ := env
  obtain rfl : orm = some r := hr
  obtain rfl : occ = some c := hc
  exact ⟨setupCall (strJoin "\n\n" [r, c]) fp, rfl, rfl, rfl, rfl, rfl, rfl⟩

/-- Witness for C1 at a concrete environment. -/
theorem C1_setup_called_once_with_metadata_witness :
    ∃ args : SetupArgs,
      runScript ⟨some "A", some "B", []⟩ = Except.ok [args]
      ∧ args.name = "pandapower"
      ∧ args.version = "2.0.0"
      ∧ args.author = "Leon Thurner, Alexander Scheidler"
      ∧ args.install_requires.length = 5
      ∧ args.classifiers.length = 15 :=
  C1_setup_called_once_with_metadata ⟨some "A", some "B", []⟩ "A" "B" rfl rfl

/-- C2: install_requires consists of exactly the five entries pandas,
networkx, scipy, numpy and packaging (four runtime libraries and one
packaging utility), and every entry is a bare name or carries only a
minimum-version constraint. -/
theorem C2_install_requires_exact (ld : String) (pkgs : List String) :
    (setupCall ld pkgs).install_requires
        = ["pandas>=0.17", "networkx", "scipy", "numpy>=0.11", "packaging"]
      ∧ (setupCall ld pkgs).install_requires.map reqName
        = ["pandas", "networkx", "scipy", "numpy", "packaging"]
      ∧ (setupCall ld pkgs).install_requires.all isBareOrMinVersion = true := by
  have h0 : (setupCall ld pkgs).install_requires
      = ["pandas>=0.17", "networkx", "scipy", "numpy>=0.11", "packaging"] := rfl
  refine ⟨h0, ?_, ?_⟩ <;> rw [h0] <;> decide

/-- Witness for C2 at concrete arguments. -/
theorem C2_install_requires_exact_witness :
    (setupCall "x" []).install_requires
        = ["pandas>=0.17", "networkx", "scipy", "numpy>=0.11", "packaging"]
      ∧ (setupCall "x" []).install_requires.map reqName
        = ["pandas", "networkx", "scipy", "numpy", "packaging"]
      ∧ (setupCall "x" []).install_requires.all isBareOrMinVersion = true :=
  C2_install_requires_exact "x" []

/-- C4 counterexample: the claim that every failure of running the script
originates in the packaging tool is false.  With README.rst unreadable the
run fails in the file read that executes before the packaging tool is
invoked: the trace holds a single failed read and no setup call at all. -/
theorem C4_counterexample_pre_setup_failure :
    runScript ⟨none, some "x", []⟩ = Except.error ScriptError.readmeUnreadable
    ∧ scriptTrace ⟨none, some "x", []⟩ = [Event.fileRead "README.rst" false] :=
  ⟨rfl, rfl⟩

/-- C4 amended: the only errors the script raises of its own are failures
of the two file reads that execute before the setup call; whenever both
README.rst and CHANGELOG.rst open, read and decode successfully, the run
reaches the single setup call without raising. -/
theorem C4_amended_only_file_read_failures (env : Env)
    (hr : env.readme.isSome = true) (hc : env.changelog.isSome = true) :
    ∃ args : SetupArgs, runScript env = Except.ok [args] := by
  obtain ⟨orm, occ, fp⟩ := env
  cases orm with
  | none => cases hr
  | some r =>
    cases occ with
    | none => cases hc
    | some c => exact ⟨setupCall (strJoin "\n\n" [r, c]) fp, rfl⟩

/-- Witness for the amended C4 at a concrete environment. -/
theorem C4_amended_only_file_read_failures_witness :
    ∃ args : SetupArgs, runScript ⟨some "A", some "B", []⟩ = Except.ok [args] :=
  C4_amended_only_file_read_failures ⟨some "A", some "B", []⟩ (by decide) (by decide)

/-- C5: whenever both files decode, the long_description passed to setup
is the decoded README.rst, then exactly two newline characters, then the
decoded CHANGELOG.rst. -/
theorem C5_long_description_concatenation (env : Env) (r c : String)
    (hr : env.readme = some r) (hc : env.changelog = some c)
    (args : SetupArgs) (h : runScript env = Except.ok [args]) :
    args.long_description = r ++ "\n\n" ++ c := by
  obtain ⟨orm, occ, fp⟩ := env
  obtain rfl : orm = some r := hr
  obtain rfl : occ = some c := hc
  have h2 : Except.ok (ε := ScriptError) [setupCall (strJoin "\n\n" [r, c]) fp]
      = Except.ok [args] := h
  injection h2 with h3
  injection h3 with h4 h5
  rw [← h4]
  rfl

/-- Witness for C5 at a concrete environment and argument record. -/
theorem C5_long_description_concatenation_witness :
    (setupCall (strJoin "\n\n" ["A", "B"]) []).long_description = "A" ++ "\n\n" ++ "B" :=
  C5_long_description_concatenation ⟨some "A", some "B", []⟩ "A" "B" rfl rfl
    (setupCall (strJoin "\n\n" ["A", "B"]) []) rfl

/-- C6: when opening, reading or decoding of either file fails, the script
raises before the setup call is reached, so the run registers nothing with
the packaging tool. -/
theorem C6_failure_prevents_registration (env : Env)
    (h : env.readme = none ∨ env.changelog = none) :
    ∃ e : ScriptError, runScript env = Except.error e := by
  obtain ⟨orm, occ, fp⟩ := env
  rcases h with h | h
  · obtain rfl : orm = none := h
    exact ⟨ScriptError.readmeUnreadable, rfl⟩
  · obtain rfl : occ = none := h
    cases orm with
    | none => exact ⟨ScriptError.readmeUnreadable, rfl⟩
    | some r => exact ⟨ScriptError.changelogUnreadable, rfl⟩

/-- Witness for C6 at a concrete environment with CHANGELOG.rst failing. -/
theorem C6_failure_prevents_registration_witness :
    ∃ e : ScriptError, runScript ⟨some "A", none, []⟩ = Except.error e :=
  C6_failure_prevents_registration ⟨some "A", none, []⟩ (Or.inr rfl)

/-- C3: exactly one conditional dependency is declared, the future
library, under the marker key comparing python_version with 3.0; a plain
install requires future exactly when the Python version is below 3.0, so
under any version at least 3.0 it is not required. -/
theorem C3_single_conditional_dependency (ld : String) (pkgs : List String) (maj mi : Nat) :
    ((setupCall ld pkgs).extras_require.filter fun kv => isConditionalKey kv.1)
        = [(condMarkerKey, ["future"])]
      ∧ (("future" ∈ requiredForPlainInstall (setupCall ld pkgs) (maj, mi)) ↔ maj < 3) := by
  constructor
  · rfl
  · rw [requiredForPlainInstall_setupCall, List.mem_append]
    constructor
    · rintro (hmem | hmem)
      · exact absurd hmem (by decide)
      · by_cases hv : versionLt (maj, mi) (3, 0) = true
        · simp only [versionLt, Bool.or_eq_true, Bool.and_eq_true, decide_eq_true_eq] at hv
          omega
        · rw [if_neg hv] at hmem
          cases hmem
    · intro hlt
      refine Or.inr ?_
      rw [if_pos]
      · exact List.mem_singleton.mpr rfl
      · simp only [versionLt, Bool.or_eq_true, Bool.and_eq_true, decide_eq_true_eq]
        omega

/-- Witness for C3 at concrete arguments and version 3.0. -/
theorem C3_single_conditional_dependency_witness :
    ((setupCall "x" []).extras_require.filter fun kv => isConditionalKey kv.1)
        = [(condMarkerKey, ["future"])]
      ∧ (("future" ∈ requiredForPlainInstall (setupCall "x" []) (3, 0)) ↔ 3 < 3) :=
  C3_single_conditional_dependency "x" [] 3 0

/-- C7: exactly one optional dependency group is declared besides the
conditional entry, the docs extra with the three documentation tools, and
a plain install (under any Python version) requires none of the three. -/
theorem C7_docs_extra_exact (ld : String) (pkgs : List String) (maj mi : Nat) :
    ((setupCall ld pkgs).extras_require.filter fun kv => !isConditionalKey kv.1)
        = [("docs", ["numpydoc", "sphinx", "sphinx_rtd_theme"])]
      ∧ (requiredForPlainInstall (setupCall ld pkgs) (maj, mi)).contains "numpydoc" = false
      ∧ (requiredForPlainInstall (setupCall ld pkgs) (maj, mi)).contains "sphinx" = false
      ∧ (requiredForPlainInstall (setupCall ld pkgs) (maj, mi)).contains "sphinx_rtd_theme"
          = false := by
  refine ⟨rfl, ?_, ?_, ?_⟩ <;>
    · rw [requiredForPlainInstall_setupCall]
      cases h : versionLt (maj, mi) (3, 0) <;> decide

/-- Witness for C7 at concrete arguments and version 2.7. -/
theorem C7_docs_extra_exact_witness :
    ((setupCall "x" []).extras_require.filter fun kv => !isConditionalKey kv.1)
        = [("docs", ["numpydoc", "sphinx", "sphinx_rtd_theme"])]
      ∧ (requiredForPlainInstall (setupCall "x" []) (2, 7)).contains "numpydoc" = false
      ∧ (requiredForPlainInstall (setupCall "x" []) (2, 7)).contains "sphinx" = false
      ∧ (requiredForPlainInstall (setupCall "x" []) (2, 7)).contains "sphinx_rtd_theme"
          = false :=
  C7_docs_extra_exact "x" [] 2 7

/-- C8: the classifier list names the supported runtime versions (Python,
Python 3, and 3.4 through 3.7) and the three intended audiences
(Developers, Education, Science/Research). -/
theorem C8_classifiers_cover_versions_and_audience (ld : String) (pkgs : List String) :
    "Programming Language :: Python" ∈ (setupCall ld pkgs).classifiers
    ∧ "Programming Language :: Python :: 3" ∈ (setupCall ld pkgs).classifiers
    ∧ "Programming Language :: Python :: 3.4" ∈ (setupCall ld pkgs).classifiers
    ∧ "Programming Language :: Python :: 3.5" ∈ (setupCall ld pkgs).classifiers
    ∧ "Programming Language :: Python :: 3.6" ∈ (setupCall ld pkgs).classifiers
    ∧ "Programming Language :: Python :: 3.7" ∈ (setupCall ld pkgs).classifiers
    ∧ "Intended Audience :: Developers" ∈ (setupCall ld pkgs).classifiers
    ∧ "Intended Audience :: Education" ∈ (setupCall ld pkgs).classifiers
    ∧ "Intended Audience :: Science/Research" ∈ (setupCall ld pkgs).classifiers := by
  have h0 : (setupCall ld pkgs).classifiers = (setupCall "" []).classifiers := rfl
  refine ⟨?_, ?_, ?_, ?_, ?_, ?_, ?_, ?_, ?_⟩ <;> rw [h0] <;> decide

/-- Witness for C8 at concrete arguments. -/
theorem C8_classifiers_cover_versions_and_audience_witness :
    "Programming Language :: Python" ∈ (setupCall "x" []).classifiers
    ∧ "Programming Language :: Python :: 3" ∈ (setupCall "x" []).classifiers
    ∧ "Programming Language :: Python :: 3.4" ∈ (setupCall "x" []).classifiers
    ∧ "Programming Language :: Python :: 3.5" ∈ (setupCall "x" []).classifiers
    ∧ "Programming Language :: Python :: 3.6" ∈ (setupCall "x" []).classifiers
    ∧ "Programming Language :: Python :: 3.7" ∈ (setupCall "x" []).classifiers
    ∧ "Intended Audience :: Developers" ∈ (setupCall "x" []).classifiers
    ∧ "Intended Audience :: Education" ∈ (setupCall "x" []).classifiers
    ∧ "Intended Audience :: Science/Research" ∈ (setupCall "x" []).classifiers :=
  C8_classifiers_cover_versions_and_audience "x" []

/-- C9 counterexample: the outcome is not determined by the contents of
the two files alone.  Two environments with identical README.rst and
CHANGELOG.rst contents but a different find_packages() result yield
different effect sequences and different setup arguments. -/
theorem C9_counterexample_package_discovery :
    (Env.mk (some "x") (some "y") []).readme
        = (Env.mk (some "x") (some "y") ["pandapower"]).readme
    ∧ (Env.mk (some "x") (some "y") []).changelog
        = (Env.mk (some "x") (some "y") ["pandapower"]).changelog
    ∧ scriptTrace (Env.mk (some "x") (some "y") [])
        ≠ scriptTrace (Env.mk (some "x") (some "y") ["pandapower"])
    ∧ runScript (Env.mk (some "x") (some "y") [])
        ≠ runScript (Env.mk (some "x") (some "y") ["pandapower"]) := by
  refine ⟨rfl, rfl, ?_, ?_⟩ <;> decide

/-- C9 amended: the run is a single synchronous straight-line execution,
deterministic in its inputs: two runs that see the same file contents and
the same find_packages() result perform the same sequence of effects and
pass identical argument values to the setup call. -/
theorem C9_amended_deterministic_in_inputs (e1 e2 : Env)
    (hr : e1.readme = e2.readme) (hc : e1.changelog = e2.changelog)
    (hp : e1.foundPackages = e2.foundPackages) :
    scriptTrace e1 = scriptTrace e2 ∧ runScript e1 = runScript e2 := by
  obtain ⟨a1, b1, c1⟩ := e1
  obtain ⟨a2, b2, c2⟩ := e2
  obtain rfl : a1 = a2 := hr
  obtain rfl : b1 = b2 := hc
  obtain rfl : c1 = c2 := hp
  exact ⟨rfl, rfl⟩

/-- Witness for the amended C9 at two equal concrete environments. -/
theorem C9_amended_deterministic_in_inputs_witness :
    scriptTrace ⟨some "x", some "y", ["p"]⟩ = scriptTrace ⟨some "x", some "y", ["p"]⟩
    ∧ runScript ⟨some "x", some "y", ["p"]⟩ = runScript ⟨some "x", some "y", ["p"]⟩ :=
  C9_amended_deterministic_in_inputs ⟨some "x", some "y", ["p"]⟩ ⟨some "x", some "y", ["p"]⟩
    rfl rfl rfl

/-- C10: building the distribution from the arguments the script registers
succeeds and the artifact contains exactly the package directories that
find_packages() discovered. -/
theorem C10_build_artifact_contains_packages (env : Env) (args : SetupArgs)
    (h : runScript env = Except.ok [args]) :
    ∃ art : Artifact, buildDistribution args = some art ∧ art.packages = env.foundPackages := by
  obtain ⟨orm, occ, fp⟩ := env
  cases orm with
  | none => exact absurd h (by simp [runScript])
  | some r =>
    cases occ with
    | none => exact absurd h (by simp [runScript])
    | some c =>
      have h2 : Except.ok (ε := ScriptError) [setupCall (strJoin "\n\n" [r, c]) fp]
          = Except.ok [args] := h
      injection h2 with h3
      injection h3 with h4 h5
      subst h4
      exact ⟨⟨"pandapower", "2.0.0", fp⟩, rfl, rfl⟩

/-- Witness for C10 at a concrete environment and argument record. -/
theorem C10_build_artifact_contains_packages_witness :
    ∃ art : Artifact,
      buildDistribution (setupCall (strJoin "\n\n" ["A", "B"]) ["pandapower"]) = some art
      ∧ art.packages = (Env.mk (some "A") (some "B") ["pandapower"]).foundPackages :=
  C10_build_artifact_contains_packages ⟨some "A", some "B", ["pandapower"]⟩
    (setupCall (strJoin "\n\n" ["A", "B"]) ["pandapower"]) rfl

end SetupPy
